import Mathlib

/-!
Verification of the rocket trajectory simulator.

The development shallowly embeds the simulator's core in Lean over the real
numbers: the 3-vector arithmetic used by the NumPy code, the atmosphere model
(`get_air_density`), the vehicle state and its update transition
(`Rocket.update_state`, translated from `src/core/rocket.py`), and the
force model plus the time-stepping loop of `scripts/run_simulation.py`
(`thrust_force`, `gravity_force`, `drag_force`, `sim_step`, `sim_loop`,
`run_simulation`).  Python floats are modelled as exact reals.  The
simulation loop, which in Python terminates because elapsed time grows by a
fixed positive step each iteration, is embedded with an explicit iteration
budget (`SIM_FUEL`) together with a theorem that the budget is never
exhausted from a fresh run.
-/

noncomputable section

namespace RocketSim

/-- A 3-component vector, mirroring the `np.ndarray` of shape `(3,)` used
throughout the simulator. -/
structure Vec3 where
  x : ℝ
  y : ℝ
  z : ℝ

/-- Componentwise vector addition. -/
def Vec3.add (a b : Vec3) : Vec3 := ⟨a.x + b.x, a.y + b.y, a.z + b.z⟩

instance : Add Vec3 := ⟨Vec3.add⟩

/-- Scalar multiplication of a vector, mirroring NumPy's `scalar * array`. -/
def Vec3.smul (c : ℝ) (v : Vec3) : Vec3 := ⟨c * v.x, c * v.y, c * v.z⟩

/-- Componentwise negation, mirroring NumPy's unary minus. -/
def Vec3.neg (v : Vec3) : Vec3 := ⟨-v.x, -v.y, -v.z⟩

/-- Division of a vector by a scalar, mirroring NumPy's `array / scalar`. -/
def Vec3.sdiv (v : Vec3) (c : ℝ) : Vec3 := ⟨v.x / c, v.y / c, v.z / c⟩

/-- Euclidean norm of a 3-vector, mirroring `np.linalg.norm`. -/
def norm3 (v : Vec3) : ℝ := Real.sqrt (v.x ^ 2 + v.y ^ 2 + v.z ^ 2)

/-! Constants from `src/core/constants.py`. -/

/-- Standard gravity at sea level (m/s²), `constants.G0`. -/
def G0 : ℝ := 9.80665

/-- Sea-level air density (kg/m³), `constants.ATM_SEA_LEVEL_DENSITY`. -/
def ATM_SEA_LEVEL_DENSITY : ℝ := 1.225

/-- Atmospheric scale height (m), `constants.ATM_SCALE_HEIGHT`. -/
def ATM_SCALE_HEIGHT : ℝ := 8500.0

/-- Integration time step (s), `constants.TIME_STEP`. -/
def TIME_STEP : ℝ := 0.1

/-- Maximum simulated duration (s), `constants.SIMULATION_DURATION`. -/
def SIMULATION_DURATION : ℝ := 600.0

/-- Air density by the exponential model, translated from
`src/core/atmosphere.py`: below sea level the sea-level density is returned,
otherwise `sea_level_density * exp (-altitude / scale_height)`. -/
def get_air_density (altitude sea_level_density scale_height : ℝ) : ℝ :=
  if altitude < 0 then sea_level_density
  else sea_level_density * Real.exp (-altitude / scale_height)

/-- The rocket entity of `src/core/rocket.py`: physical properties and the
mutable state vectors, as one record. -/
structure Rocket where
  mass : ℝ
  dry_mass : ℝ
  cross_sectional_area : ℝ
  position : Vec3
  velocity : Vec3
  acceleration : Vec3
  current_propellant_mass : ℝ

/-- Constructor of `Rocket` (`Rocket.__init__`): initial acceleration is
zero, initial propellant is `initial_mass - dry_mass`, and when that is
negative the propellant is adjusted to `0` with the total mass set to the
dry mass (the code prints a warning, modelled by `init_mass_warning`). -/
def mkRocket (initial_mass dry_mass cross_sectional_area : ℝ)
    (initial_position initial_velocity : Vec3) : Rocket :=
  if initial_mass - dry_mass < 0 then
    { mass := dry_mass, dry_mass := dry_mass,
      cross_sectional_area := cross_sectional_area,
      position := initial_position, velocity := initial_velocity,
      acceleration := ⟨0, 0, 0⟩, current_propellant_mass := 0 }
  else
    { mass := initial_mass, dry_mass := dry_mass,
      cross_sectional_area := cross_sectional_area,
      position := initial_position, velocity := initial_velocity,
      acceleration := ⟨0, 0, 0⟩,
      current_propellant_mass := initial_mass - dry_mass }

/-- The advisory printed by `Rocket.__init__` when the initial mass is less
than the dry mass ("Adjusting propellant to 0"); non-fatal. -/
def init_mass_warning (initial_mass dry_mass : ℝ) : Prop :=
  initial_mass - dry_mass < 0

/-- Translation of `Rocket.update_state(dt, total_force, mass_flow_rate)` from
`src/core/rocket.py` lines 55-93 in the source's statement order:
acceleration from `total_force / mass`, velocity from the new acceleration,
position from the new velocity, and then the propellant/mass update with
its two clamps (consumption clamped to the remaining propellant, total mass
clamped at the dry mass). -/
def Rocket.update_state (r : Rocket) (dt : ℝ) (total_force : Vec3)
    (mass_flow_rate : ℝ) : Rocket :=
  let acceleration := total_force.sdiv r.mass
  let velocity := r.velocity + Vec3.smul dt acceleration
  let position := r.position + Vec3.smul dt velocity
  if mass_flow_rate > 0 ∧ r.current_propellant_mass > 0 then
    let mass_consumed := mass_flow_rate * dt
    let consumed :=
      if mass_consumed > r.current_propellant_mass then r.current_propellant_mass
      else mass_consumed
    let new_propellant :=
      if mass_consumed > r.current_propellant_mass then 0
      else r.current_propellant_mass - mass_consumed
    let new_mass :=
      if r.mass - consumed < r.dry_mass then r.dry_mass else r.mass - consumed
    { mass := new_mass, dry_mass := r.dry_mass,
      cross_sectional_area := r.cross_sectional_area,
      position := position, velocity := velocity, acceleration := acceleration,
      current_propellant_mass := new_propellant }
  else
    { mass := r.mass, dry_mass := r.dry_mass,
      cross_sectional_area := r.cross_sectional_area,
      position := position, velocity := velocity, acceleration := acceleration,
      current_propellant_mass := r.current_propellant_mass }

/-- Property `Rocket.altitude`: z-component of the position. -/
def Rocket.altitude (r : Rocket) : ℝ := r.position.z

/-- Property `Rocket.speed`: magnitude of the velocity. -/
def Rocket.speed (r : Rocket) : ℝ := norm3 r.velocity

/-- Property `Rocket.has_propellant`: whether usable propellant remains. -/
def Rocket.has_propellant (r : Rocket) : Prop := r.current_propellant_mass > 0

/-- The result of step 4 of `update_state` (the propellant/mass update) as a
function of the pre-step scalar state only: returns the pair
`(new mass, new propellant)`. -/
def mass_prop_update (mass dry_mass prop mass_flow_rate dt : ℝ) : ℝ × ℝ :=
  if mass_flow_rate > 0 ∧ prop > 0 then
    let mass_consumed := mass_flow_rate * dt
    let consumed := if mass_consumed > prop then prop else mass_consumed
    let new_propellant := if mass_consumed > prop then 0 else prop - mass_consumed
    (if mass - consumed < dry_mass then dry_mass else mass - consumed, new_propellant)
  else (mass, prop)

/-! The simulation script, `scripts/run_simulation.py`. -/

/-- The configuration record extracted from the YAML file by
`run_simulation` (mass, engine and aerodynamic parameters plus the optional
initial state, with the script's defaults already applied). -/
structure Config where
  initial_mass : ℝ
  dry_mass : ℝ
  thrust_N : ℝ
  burn_time_s : ℝ
  drag_coefficient : ℝ
  cross_sectional_area_m2 : ℝ
  initial_position : Vec3
  initial_velocity : Vec3
  initial_direction_vector : Vec3

/-- The `engine_mass_flow_rate` of `run_simulation` (line 107):
`propellant_mass / burn_time_s` when the burn time is positive, else `0`,
where `propellant_mass = initial_mass - dry_mass` (line 105). -/
def engine_mass_flow_rate (cfg : Config) : ℝ :=
  if cfg.burn_time_s > 0 then (cfg.initial_mass - cfg.dry_mass) / cfg.burn_time_s
  else 0

/-- Normalization of the configured thrust direction (lines 124-131): the
vector divided by its magnitude when that magnitude exceeds `1e-9`, else the
default vertical direction `[0,0,1]` (with a printed warning, modelled by
`direction_warning`). -/
def normalize_direction (d : Vec3) : Vec3 :=
  if norm3 d > 1e-9 then d.sdiv (norm3 d) else ⟨0, 0, 1⟩

/-- The advisory printed when the configured direction vector is degenerate
(magnitude not above `1e-9`); non-fatal. -/
def direction_warning (d : Vec3) : Prop := ¬ norm3 d > 1e-9

/-- The fixed unit thrust direction of a run. -/
def thrust_direction_unit (cfg : Config) : Vec3 :=
  normalize_direction cfg.initial_direction_vector

/-- Thrust force at elapsed time `t` (lines 193-196): the fixed direction
scaled by `thrust_N` while `t ≤ burn_time_s`, the zero vector after. -/
def thrust_force (cfg : Config) (t : ℝ) : Vec3 :=
  if t ≤ cfg.burn_time_s then Vec3.smul cfg.thrust_N (thrust_direction_unit cfg)
  else ⟨0, 0, 0⟩

/-- Gravity force (line 200): constant downward `mass * G0`. -/
def gravity_force (r : Rocket) : Vec3 := ⟨0, 0, -(r.mass * G0)⟩

/-- Drag magnitude (lines 208-211): `0.5 * ρ(altitude) * speed² * Cd * A`
when the speed exceeds the `1e-6` threshold, else `0`. -/
def drag_magnitude (cfg : Config) (r : Rocket) : ℝ :=
  if r.speed > 1e-6 then
    0.5 * get_air_density r.altitude ATM_SEA_LEVEL_DENSITY ATM_SCALE_HEIGHT *
      r.speed ^ 2 * cfg.drag_coefficient * cfg.cross_sectional_area_m2
  else 0

/-- Drag force (line 214): `-velocity / speed * drag_magnitude` when the
speed exceeds the `1e-6` threshold, else the zero vector. -/
def drag_force (cfg : Config) (r : Rocket) : Vec3 :=
  if r.speed > 1e-6 then
    Vec3.smul (drag_magnitude cfg r) ((Vec3.neg r.velocity).sdiv r.speed)
  else ⟨0, 0, 0⟩

/-- Net force on the rocket at elapsed time `t` (line 217). -/
def total_force (cfg : Config) (t : ℝ) (r : Rocket) : Vec3 :=
  thrust_force cfg t + gravity_force r + drag_force cfg r

/-- The mass flow rate passed to `update_state` at elapsed time `t`
(line 221): `engine_mass_flow_rate` while `t ≤ burn_time_s`, else `0`. -/
def mass_flow (cfg : Config) (t : ℝ) : ℝ :=
  if t ≤ cfg.burn_time_s then engine_mass_flow_rate cfg else 0

/-- One loop iteration's state update (line 223). -/
def sim_step (cfg : Config) (t : ℝ) (r : Rocket) : Rocket :=
  r.update_state TIME_STEP (total_force cfg t r) (mass_flow cfg t)

/-- One recorded time-series entry: the script appends the time together
with the rocket's position, velocity, mass, altitude and speed (lines
229-234), all of which are projections of the rocket state kept here. -/
structure Sample where
  time : ℝ
  rocket : Rocket

/-- How a run ended: ground impact (the `break`), the while-condition
becoming false (duration exceeded or the altitude floor crossed), or the
iteration budget of the embedding running out (shown unreachable from a
fresh run). -/
inductive Outcome where
  | impact : Outcome
  | duration_exceeded : Outcome
  | fuel_exhausted : Outcome
deriving DecidableEq

/-- The main simulation loop (lines 188-240): while
`t < SIMULATION_DURATION` and `altitude ≥ -1.0`, step the state, advance
time, append the sample, and break on impact (`altitude ≤ 0` with negative
vertical velocity) — the impact check runs after the append.  Returns the
samples recorded by the iterations together with how the loop ended. -/
def sim_loop (cfg : Config) : ℕ → ℝ → Rocket → List Sample × Outcome
  | 0, _, _ => ([], Outcome.fuel_exhausted)
  | fuel + 1, t, r =>
    if t < SIMULATION_DURATION ∧ r.altitude ≥ -1.0 then
      let r2 := sim_step cfg t r
      let t2 := t + TIME_STEP
      if r2.altitude ≤ 0 ∧ r2.velocity.z < 0 then
        ([{ time := t2, rocket := r2 }], Outcome.impact)
      else
        let rest := sim_loop cfg fuel t2 r2
        ({ time := t2, rocket := r2 } :: rest.1, rest.2)
    else ([], Outcome.duration_exceeded)

/-- Iteration budget for the embedded loop: `SIMULATION_DURATION / TIME_STEP`
iterations plus one; the loop is proved to end before exhausting it. -/
def SIM_FUEL : ℕ := 6001

/-- The whole run of `run_simulation` after configuration loading: build the
rocket, record sample 0 (lines 176-182), then iterate the loop.  Returns the
full ordered sample sequence and the outcome. -/
def run_simulation (cfg : Config) : List Sample × Outcome :=
  let rocket := mkRocket cfg.initial_mass cfg.dry_mass
    cfg.cross_sectional_area_m2 cfg.initial_position cfg.initial_velocity
  let res := sim_loop cfg SIM_FUEL 0 rocket
  ({ time := 0, rocket := rocket } :: res.1, res.2)

/-! Helper lemmas about the state update. -/

theorem Rocket.update_state_dry (r : Rocket) (dt : ℝ) (F : Vec3) (fl : ℝ) :
    (r.update_state dt F fl).dry_mass = r.dry_mass := by
  unfold Rocket.update_state
  split <;> rfl

theorem Rocket.update_state_area (r : Rocket) (dt : ℝ) (F : Vec3) (fl : ℝ) :
    (r.update_state dt F fl).cross_sectional_area = r.cross_sectional_area := by
  unfold Rocket.update_state
  split <;> rfl

theorem Rocket.update_state_mass_prop (r : Rocket) (dt : ℝ) (F : Vec3) (fl : ℝ) :
    (r.update_state dt F fl).mass =
      (mass_prop_update r.mass r.dry_mass r.current_propellant_mass fl dt).1 ∧
    (r.update_state dt F fl).current_propellant_mass =
      (mass_prop_update r.mass r.dry_mass r.current_propellant_mass fl dt).2 := by
  unfold Rocket.update_state mass_prop_update
  by_cases h : fl > 0 ∧ r.current_propellant_mass > 0 <;> simp [h]

theorem mass_prop_update_budget (m d p fl dt : ℝ) (h : m = d + p) :
    (mass_prop_update m d p fl dt).1 = d + (mass_prop_update m d p fl dt).2 := by
  unfold mass_prop_update
  by_cases h1 : fl > 0 ∧ p > 0
  · simp only [if_pos h1]
    by_cases h2 : fl * dt > p
    · simp only [if_pos h2]
      have hmd : m - p = d := by linarith
      simp [hmd]
    · simp only [if_neg h2]
      have hge : ¬ m - fl * dt < d := by push_neg at h2 ⊢; linarith
      simp only [if_neg hge]
      linarith
  · simp only [if_neg h1]
    exact h

theorem mass_prop_update_prop_nonneg (m d p fl dt : ℝ) (hp : 0 ≤ p) :
    0 ≤ (mass_prop_update m d p fl dt).2 := by
  unfold mass_prop_update
  by_cases h1 : fl > 0 ∧ p > 0
  · simp only [if_pos h1]
    by_cases h2 : fl * dt > p
    · simp [h2]
    · push_neg at h2
      simp only [if_neg (not_lt.mpr h2)]
      linarith
  · simpa [h1] using hp

theorem mass_prop_update_prop_le (m d p fl dt : ℝ) (hdt : 0 ≤ dt) :
    (mass_prop_update m d p fl dt).2 ≤ p := by
  unfold mass_prop_update
  by_cases h1 : fl > 0 ∧ p > 0
  · simp only [if_pos h1]
    by_cases h2 : fl * dt > p
    · simp only [if_pos h2]
      exact le_of_lt h1.2
    · push_neg at h2
      simp only [if_neg (not_lt.mpr h2)]
      nlinarith [h1.1]
  · simp [h1]

theorem mass_prop_update_mass_le (m d p fl dt : ℝ) (hd : d ≤ m) (hdt : 0 ≤ dt) :
    (mass_prop_update m d p fl dt).1 ≤ m := by
  unfold mass_prop_update
  by_cases h1 : fl > 0 ∧ p > 0
  · simp only [if_pos h1]
    by_cases h2 : fl * dt > p
    · simp only [if_pos h2]
      split <;> linarith [h1.2]
    · push_neg at h2
      simp only [if_neg (not_lt.mpr h2)]
      have hc : 0 ≤ fl * dt := mul_nonneg (le_of_lt h1.1) hdt
      split <;> linarith
  · simp [h1]

theorem mass_prop_update_skip (m d p fl dt : ℝ) (h : fl ≤ 0 ∨ p ≤ 0) :
    mass_prop_update m d p fl dt = (m, p) := by
  unfold mass_prop_update
  have : ¬ (fl > 0 ∧ p > 0) := by
    rcases h with h | h
    · exact fun hc => absurd hc.1 (not_lt.mpr h)
    · exact fun hc => absurd hc.2 (not_lt.mpr h)
  simp [this]

/-! Claim theorems: the vehicle state update. -/

/-- C1: on a state with positive mass, `update_state` performs the
semi-implicit Euler step in order: the new acceleration is
`total_force / mass` with the pre-call mass, the new velocity is the old
velocity plus that acceleration times `dt`, the new position is the old
position plus the just-updated velocity times `dt`, and the mass/propellant
update is a function of the pre-call scalar state only, applied after the
three vector updates. -/
theorem C1_update_state_order (r : Rocket) (dt : ℝ) (F : Vec3) (fl : ℝ)
    (h : 0 < r.mass) :
    (r.update_state dt F fl).acceleration = F.sdiv r.mass ∧
    (r.update_state dt F fl).velocity =
      r.velocity + Vec3.smul dt (F.sdiv r.mass) ∧
    (r.update_state dt F fl).position =
      r.position + Vec3.smul dt ((r.update_state dt F fl).velocity) ∧
    (r.update_state dt F fl).mass =
      (mass_prop_update r.mass r.dry_mass r.current_propellant_mass fl dt).1 ∧
    (r.update_state dt F fl).current_propellant_mass =
      (mass_prop_update r.mass r.dry_mass r.current_propellant_mass fl dt).2 := by
  refine ⟨?_, ?_, ?_, (r.update_state_mass_prop dt F fl).1,
    (r.update_state_mass_prop dt F fl).2⟩ <;>
    · unfold Rocket.update_state
      by_cases h1 : fl > 0 ∧ r.current_propellant_mass > 0 <;> simp [h1]

/-- Concrete rocket used by the C1 witness. -/
def c1Rocket : Rocket := ⟨2, 1, 1, ⟨0, 0, 0⟩, ⟨0, 0, 0⟩, ⟨0, 0, 0⟩, 1⟩

theorem C1_update_state_order_witness :
    0 < c1Rocket.mass ∧
    (c1Rocket.update_state 1 ⟨0, 0, 6⟩ 0).acceleration =
      Vec3.sdiv ⟨0, 0, 6⟩ c1Rocket.mass :=
  ⟨by norm_num [c1Rocket],
   (C1_update_state_order c1Rocket 1 ⟨0, 0, 6⟩ 0 (by norm_num [c1Rocket])).1⟩

/-- C6: with a positive scale height, `get_air_density` returns the
sea-level density below altitude zero and the exponential profile at or
above it, and it is a pure function of its arguments (equal inputs give
equal outputs). -/
theorem C6_get_air_density (altitude sea_level_density scale_height : ℝ)
    (h : 0 < scale_height) :
    (altitude < 0 →
      get_air_density altitude sea_level_density scale_height = sea_level_density) ∧
    (0 ≤ altitude →
      get_air_density altitude sea_level_density scale_height =
        sea_level_density * Real.exp (-altitude / scale_height)) ∧
    (∀ a2 s2 c2 : ℝ, altitude = a2 → sea_level_density = s2 → scale_height = c2 →
      get_air_density altitude sea_level_density scale_height =
        get_air_density a2 s2 c2) := by
  refine ⟨fun hneg => ?_, fun hpos => ?_, fun a2 s2 c2 ha hs hc => ?_⟩
  · simp [get_air_density, hneg]
  · simp [get_air_density, not_lt.mpr hpos]
  · rw [ha, hs, hc]

theorem C6_get_air_density_witness :
    (0 : ℝ) < 8500 ∧ get_air_density (-1) 1.225 8500 = 1.225 :=
  ⟨by norm_num,
   (C6_get_air_density (-1) 1.225 8500 (by norm_num)).1 (by norm_num)⟩

/-- C9: the identity `mass = dry_mass + propellant_remaining` holds after
construction (in both the normal and the clamped branch) and is preserved
by every `update_state` call under exact arithmetic. -/
theorem C9_mass_budget :
    (∀ (im dm a : ℝ) (p v : Vec3),
      (mkRocket im dm a p v).mass =
        (mkRocket im dm a p v).dry_mass +
          (mkRocket im dm a p v).current_propellant_mass) ∧
    (∀ (r : Rocket) (dt : ℝ) (F : Vec3) (fl : ℝ),
      r.mass = r.dry_mass + r.current_propellant_mass →
      (r.update_state dt F fl).mass =
        (r.update_state dt F fl).dry_mass +
          (r.update_state dt F fl).current_propellant_mass) := by
  constructor
  · intro im dm a p v
    unfold mkRocket
    split <;> simp
  · intro r dt F fl h
    rw [(r.update_state_mass_prop dt F fl).1, (r.update_state_mass_prop dt F fl).2,
      r.update_state_dry dt F fl]
    exact mass_prop_update_budget _ _ _ _ _ h

/-- Concrete rocket used by the C9 witness. -/
def c9Rocket : Rocket := ⟨3, 1, 1, ⟨0, 0, 0⟩, ⟨0, 0, 0⟩, ⟨0, 0, 0⟩, 2⟩

theorem C9_mass_budget_witness :
    (c9Rocket.update_state 1 ⟨0, 0, 0⟩ 1).mass =
      (c9Rocket.update_state 1 ⟨0, 0, 0⟩ 1).dry_mass +
        (c9Rocket.update_state 1 ⟨0, 0, 0⟩ 1).current_propellant_mass :=
  C9_mass_budget.2 c9Rocket 1 ⟨0, 0, 0⟩ 1 (by norm_num [c9Rocket])

/-- C10: every `update_state` call leaves `dry_mass` and
`cross_sectional_area` unchanged, and when the mass flow rate is
non-positive or the propellant is exactly zero it also leaves `mass` and
`current_propellant_mass` unchanged (only the vector state changes). -/
theorem C10_update_state_frame (r : Rocket) (dt : ℝ) (F : Vec3) (fl : ℝ) :
    ((r.update_state dt F fl).dry_mass = r.dry_mass ∧
     (r.update_state dt F fl).cross_sectional_area = r.cross_sectional_area) ∧
    (fl ≤ 0 ∨ r.current_propellant_mass = 0 →
      (r.update_state dt F fl).mass = r.mass ∧
      (r.update_state dt F fl).current_propellant_mass =
        r.current_propellant_mass) := by
  refine ⟨⟨r.update_state_dry dt F fl, r.update_state_area dt F fl⟩, fun h => ?_⟩
  have hskip : mass_prop_update r.mass r.dry_mass r.current_propellant_mass fl dt =
      (r.mass, r.current_propellant_mass) := by
    refine mass_prop_update_skip _ _ _ _ _ ?_
    rcases h with h | h
    · exact Or.inl h
    · exact Or.inr (le_of_eq h)
  refine ⟨?_, ?_⟩
  · rw [(r.update_state_mass_prop dt F fl).1, hskip]
  · rw [(r.update_state_mass_prop dt F fl).2, hskip]

/-- Concrete rocket used by the C10 witness. -/
def c10Rocket : Rocket := ⟨1, 1, 1, ⟨0, 0, 0⟩, ⟨0, 0, 0⟩, ⟨0, 0, 0⟩, 0⟩

theorem C10_update_state_frame_witness :
    (c10Rocket.update_state 1 ⟨0, 0, 0⟩ 5).mass = c10Rocket.mass ∧
    (c10Rocket.update_state 1 ⟨0, 0, 0⟩ 5).current_propellant_mass =
      c10Rocket.current_propellant_mass :=
  (C10_update_state_frame c10Rocket 1 ⟨0, 0, 0⟩ 5).2 (Or.inr (by norm_num [c10Rocket]))

/-! Helper lemmas about vector norms and the atmosphere. -/

theorem Vec3.sdiv_eq_smul (v : Vec3) (c : ℝ) : v.sdiv c = Vec3.smul c⁻¹ v := by
  unfold Vec3.sdiv Vec3.smul
  simp [div_eq_inv_mul]

theorem norm3_smul (c : ℝ) (v : Vec3) : norm3 (Vec3.smul c v) = |c| * norm3 v := by
  unfold norm3 Vec3.smul
  have h : (c * v.x) ^ 2 + (c * v.y) ^ 2 + (c * v.z) ^ 2 =
      c ^ 2 * (v.x ^ 2 + v.y ^ 2 + v.z ^ 2) := by ring
  rw [h, Real.sqrt_mul (sq_nonneg c), Real.sqrt_sq_eq_abs]

theorem norm3_neg (v : Vec3) : norm3 (Vec3.neg v) = norm3 v := by
  unfold norm3 Vec3.neg
  norm_num

theorem get_air_density_nonneg (altitude sea_level_density scale_height : ℝ)
    (h : 0 ≤ sea_level_density) :
    0 ≤ get_air_density altitude sea_level_density scale_height := by
  unfold get_air_density
  split
  · exact h
  · exact mul_nonneg h (le_of_lt (Real.exp_pos _))

/-- C5: when the speed is at most the `1e-6` threshold the drag force is
exactly the zero vector, and when it exceeds the threshold the drag force
is `-velocity / speed` scaled by `0.5 * ρ(altitude) * speed² * Cd * A`,
whose norm (for non-negative drag coefficient and area) is exactly that
magnitude — the computation is total and never divides by a zero speed. -/
theorem C5_drag_force (cfg : Config) (r : Rocket) :
    (r.speed ≤ 1e-6 → drag_force cfg r = ⟨0, 0, 0⟩) ∧
    (1e-6 < r.speed →
      drag_force cfg r =
        Vec3.smul
          (0.5 * get_air_density r.altitude ATM_SEA_LEVEL_DENSITY ATM_SCALE_HEIGHT *
            r.speed ^ 2 * cfg.drag_coefficient * cfg.cross_sectional_area_m2)
          ((Vec3.neg r.velocity).sdiv r.speed) ∧
      (0 ≤ cfg.drag_coefficient → 0 ≤ cfg.cross_sectional_area_m2 →
        norm3 (drag_force cfg r) =
          0.5 * get_air_density r.altitude ATM_SEA_LEVEL_DENSITY ATM_SCALE_HEIGHT *
            r.speed ^ 2 * cfg.drag_coefficient * cfg.cross_sectional_area_m2)) := by
  constructor
  · intro hle
    rw [drag_force, if_neg (not_lt.mpr hle)]
  · intro hgt
    have hs : 0 < r.speed := lt_trans (by norm_num) hgt
    have hmageq : drag_magnitude cfg r =
        0.5 * get_air_density r.altitude ATM_SEA_LEVEL_DENSITY ATM_SCALE_HEIGHT *
          r.speed ^ 2 * cfg.drag_coefficient * cfg.cross_sectional_area_m2 := by
      rw [drag_magnitude, if_pos hgt]
    refine ⟨by rw [drag_force, if_pos hgt, hmageq], fun hCd hA => ?_⟩
    have hmag : 0 ≤ drag_magnitude cfg r := by
      rw [hmageq]
      have hρ : 0 ≤ get_air_density r.altitude ATM_SEA_LEVEL_DENSITY ATM_SCALE_HEIGHT :=
        get_air_density_nonneg _ _ _ (by norm_num [ATM_SEA_LEVEL_DENSITY])
      positivity
    rw [drag_force, if_pos hgt, Vec3.sdiv_eq_smul, norm3_smul, norm3_smul, norm3_neg]
    have hnv : norm3 r.velocity = r.speed := rfl
    rw [hnv, abs_of_nonneg hmag, abs_of_nonneg (inv_nonneg.mpr (le_of_lt hs)),
      inv_mul_cancel₀ (ne_of_gt hs), mul_one, hmageq]

/-- Concrete rocket (at rest) used by the C5 witness. -/
def c5Rocket : Rocket := ⟨2, 1, 1, ⟨0, 0, 100⟩, ⟨0, 0, 0⟩, ⟨0, 0, 0⟩, 1⟩

/-- Concrete configuration used by the C5 witness. -/
def c5Config : Config := ⟨2, 1, 30, 1, 0.5, 1, ⟨0, 0, 0⟩, ⟨0, 0, 0⟩, ⟨0, 0, 1⟩⟩

theorem C5_drag_force_witness : drag_force c5Config c5Rocket = ⟨0, 0, 0⟩ :=
  (C5_drag_force c5Config c5Rocket).1
    (by norm_num [c5Rocket, Rocket.speed, norm3])

/-- C8 counterexample: the direction vector `[1e-9, 0, 0]` has magnitude
exactly `1e-9`, which is not below the threshold, yet the code substitutes
the vertical default instead of normalizing the vector as the claim's
"otherwise" branch states. -/
def c8Vector : Vec3 := ⟨1e-9, 0, 0⟩

theorem C8_thrust_direction_counterexample :
    ¬ norm3 c8Vector < 1e-9 ∧
    normalize_direction c8Vector = ⟨0, 0, 1⟩ ∧
    normalize_direction c8Vector ≠ Vec3.sdiv c8Vector (norm3 c8Vector) := by
  have hnorm : norm3 c8Vector = 1e-9 := by
    unfold norm3 c8Vector
    rw [show ((1e-9 : ℝ) ^ 2 + 0 ^ 2 + 0 ^ 2) = (1e-9 : ℝ) ^ 2 by ring,
      Real.sqrt_sq (by norm_num : (0 : ℝ) ≤ 1e-9)]
  have hnot : ¬ norm3 c8Vector > 1e-9 := by rw [hnorm]; exact lt_irrefl _
  have hdef : normalize_direction c8Vector = ⟨0, 0, 1⟩ := by
    rw [normalize_direction, if_neg hnot]
  refine ⟨by rw [hnorm]; exact lt_irrefl _, hdef, fun h => ?_⟩
  have hx := congrArg Vec3.x (hdef ▸ h)
  rw [hnorm] at hx
  norm_num [Vec3.sdiv, c8Vector] at hx

/-- C8 (amended): when the configured direction vector's magnitude is at or
below `1e-9` the effective thrust direction is the vertical unit vector
`[0,0,1]` with a non-fatal advisory; when the magnitude strictly exceeds
`1e-9` it is the configured vector divided by its magnitude.  The unit
direction is a function of the configuration alone (fixed for the run), and
the thrust force is that direction scaled by `thrust_N` while
`t ≤ burn_time_s` and the zero vector after. -/
theorem C8_thrust_direction (cfg : Config) (t : ℝ) :
    (norm3 cfg.initial_direction_vector ≤ 1e-9 →
      thrust_direction_unit cfg = ⟨0, 0, 1⟩ ∧
      direction_warning cfg.initial_direction_vector) ∧
    (1e-9 < norm3 cfg.initial_direction_vector →
      thrust_direction_unit cfg =
        Vec3.sdiv cfg.initial_direction_vector (norm3 cfg.initial_direction_vector)) ∧
    (t ≤ cfg.burn_time_s →
      thrust_force cfg t = Vec3.smul cfg.thrust_N (thrust_direction_unit cfg)) ∧
    (cfg.burn_time_s < t → thrust_force cfg t = ⟨0, 0, 0⟩) := by
  refine ⟨fun hle => ⟨?_, not_lt.mpr hle⟩, fun hgt => ?_, fun hburn => ?_, fun hafter => ?_⟩
  · rw [thrust_direction_unit, normalize_direction, if_neg (not_lt.mpr hle)]
  · rw [thrust_direction_unit, normalize_direction, if_pos hgt]
  · rw [thrust_force, if_pos hburn]
  · rw [thrust_force, if_neg (not_le.mpr hafter)]

/-- Concrete configuration (zero direction vector) used by the C8 witness. -/
def c8Config : Config := ⟨2, 1, 30, 1, 0.5, 1, ⟨0, 0, 0⟩, ⟨0, 0, 0⟩, ⟨0, 0, 0⟩⟩

theorem C8_thrust_direction_witness :
    thrust_direction_unit c8Config = ⟨0, 0, 1⟩ :=
  ((C8_thrust_direction c8Config 0).1
    (by norm_num [c8Config, norm3])).1

/-- C3 counterexample: with `initial_mass = 1 < 2 = dry_mass` and a
one-second burn, the constructed rocket has no propellant at all, yet at
`t = 0 ≤ burn_time_s` the loop passes `(1 - 2) / 1 = -1 ≠ 0` to the state
update — the code never consults the remaining propellant when computing
the flow rate it passes. -/
def c3Config : Config := ⟨1, 2, 0, 1, 0, 1, ⟨0, 0, 0⟩, ⟨0, 0, 0⟩, ⟨0, 0, 1⟩⟩

theorem C3_mass_flow_counterexample :
    (0 : ℝ) ≤ c3Config.burn_time_s ∧
    ¬ (mkRocket c3Config.initial_mass c3Config.dry_mass
        c3Config.cross_sectional_area_m2 c3Config.initial_position
        c3Config.initial_velocity).has_propellant ∧
    mass_flow c3Config 0 = -1 ∧
    2 ≤ (run_simulation c3Config).1.length := by
  refine ⟨by norm_num [c3Config], ?_, ?_, ?_⟩
  · norm_num [mkRocket, Rocket.has_propellant, c3Config]
  · norm_num [mass_flow, engine_mass_flow_rate, c3Config]
  · have hguard : (0 : ℝ) < SIMULATION_DURATION ∧
        (mkRocket c3Config.initial_mass c3Config.dry_mass
          c3Config.cross_sectional_area_m2 c3Config.initial_position
          c3Config.initial_velocity).altitude ≥ -1.0 := by
      constructor
      · norm_num [SIMULATION_DURATION]
      · norm_num [mkRocket, Rocket.altitude, c3Config]
    rw [run_simulation]
    rw [show SIM_FUEL = 6000 + 1 from rfl]
    rw [sim_loop, if_pos hguard]
    dsimp only
    split
    · simp
    · simp

/-- C3 (amended): the mass flow rate passed to the state update equals
`(initial_mass - dry_mass) / burn_time_s` at every step with
`t ≤ burn_time_s` when `burn_time_s > 0` — regardless of whether propellant
remains — and equals zero after the burn time; whenever `burn_time_s ≤ 0`
it is zero at every step. -/
theorem C3_mass_flow (cfg : Config) (t : ℝ) :
    (0 < cfg.burn_time_s → t ≤ cfg.burn_time_s →
      mass_flow cfg t = (cfg.initial_mass - cfg.dry_mass) / cfg.burn_time_s) ∧
    (cfg.burn_time_s < t → mass_flow cfg t = 0) ∧
    (cfg.burn_time_s ≤ 0 → mass_flow cfg t = 0) := by
  refine ⟨fun hpos hle => ?_, fun hafter => ?_, fun hnp => ?_⟩
  · rw [mass_flow, if_pos hle, engine_mass_flow_rate, if_pos hpos]
  · rw [mass_flow, if_neg (not_le.mpr hafter)]
  · rw [mass_flow]
    split
    · rw [engine_mass_flow_rate, if_neg (not_lt.mpr hnp)]
    · rfl

theorem C3_mass_flow_witness : mass_flow c3Config 700 = 0 :=
  (C3_mass_flow c3Config 700).2.1 (by norm_num [c3Config])

/-! Helper lemmas about construction and the loop. -/

/-- The state invariant driving the mass claims: the exact mass budget
identity together with non-negative propellant. -/
def GoodR (r : Rocket) : Prop :=
  r.mass = r.dry_mass + r.current_propellant_mass ∧ 0 ≤ r.current_propellant_mass

theorem mkRocket_good (im dm a : ℝ) (p v : Vec3) : GoodR (mkRocket im dm a p v) := by
  unfold GoodR mkRocket
  by_cases h : im - dm < 0
  · rw [if_pos h]
    exact ⟨by ring, le_refl 0⟩
  · rw [if_neg h]
    refine ⟨by show im = dm + (im - dm); ring, ?_⟩
    show (0 : ℝ) ≤ im - dm
    linarith [not_lt.mp h]

theorem mkRocket_dry (im dm a : ℝ) (p v : Vec3) :
    (mkRocket im dm a p v).dry_mass = dm := by
  unfold mkRocket
  split <;> rfl

theorem mkRocket_clamped (im dm a : ℝ) (p v : Vec3) (h : im - dm < 0) :
    (mkRocket im dm a p v).mass = dm ∧
    (mkRocket im dm a p v).current_propellant_mass = 0 := by
  unfold mkRocket
  rw [if_pos h]
  exact ⟨rfl, rfl⟩

theorem update_state_good (r : Rocket) (dt : ℝ) (F : Vec3) (fl : ℝ)
    (h : GoodR r) : GoodR (r.update_state dt F fl) := by
  refine ⟨?_, ?_⟩
  · rw [(r.update_state_mass_prop dt F fl).1, (r.update_state_mass_prop dt F fl).2,
      r.update_state_dry dt F fl]
    exact mass_prop_update_budget _ _ _ _ _ h.1
  · rw [(r.update_state_mass_prop dt F fl).2]
    exact mass_prop_update_prop_nonneg _ _ _ _ _ h.2

theorem update_state_mass_le (r : Rocket) (dt : ℝ) (F : Vec3) (fl : ℝ)
    (hd : r.dry_mass ≤ r.mass) (hdt : 0 ≤ dt) :
    (r.update_state dt F fl).mass ≤ r.mass := by
  rw [(r.update_state_mass_prop dt F fl).1]
  exact mass_prop_update_mass_le _ _ _ _ _ hd hdt

theorem update_state_prop_le (r : Rocket) (dt : ℝ) (F : Vec3) (fl : ℝ)
    (hdt : 0 ≤ dt) :
    (r.update_state dt F fl).current_propellant_mass ≤ r.current_propellant_mass := by
  rw [(r.update_state_mass_prop dt F fl).2]
  exact mass_prop_update_prop_le _ _ _ _ _ hdt

theorem update_state_no_propellant (r : Rocket) (dt : ℝ) (F : Vec3) (fl : ℝ)
    (h : r.current_propellant_mass = 0) :
    (r.update_state dt F fl).mass = r.mass ∧
    (r.update_state dt F fl).current_propellant_mass = r.current_propellant_mass := by
  have hskip : mass_prop_update r.mass r.dry_mass r.current_propellant_mass fl dt =
      (r.mass, r.current_propellant_mass) :=
    mass_prop_update_skip _ _ _ _ _ (Or.inr (le_of_eq h))
  exact ⟨by rw [(r.update_state_mass_prop dt F fl).1, hskip],
    by rw [(r.update_state_mass_prop dt F fl).2, hskip]⟩

theorem GoodR.dry_le {r : Rocket} (h : GoodR r) : r.dry_mass ≤ r.mass := by
  rw [h.1]
  linarith [h.2]

theorem sim_step_good (cfg : Config) (t : ℝ) (r : Rocket) (h : GoodR r) :
    GoodR (sim_step cfg t r) :=
  update_state_good _ _ _ _ h

theorem sim_step_dry (cfg : Config) (t : ℝ) (r : Rocket) :
    (sim_step cfg t r).dry_mass = r.dry_mass :=
  Rocket.update_state_dry _ _ _ _

theorem sim_step_mass_le (cfg : Config) (t : ℝ) (r : Rocket) (h : GoodR r) :
    (sim_step cfg t r).mass ≤ r.mass :=
  update_state_mass_le _ _ _ _ h.dry_le (by norm_num [TIME_STEP])

theorem sim_step_prop_le (cfg : Config) (t : ℝ) (r : Rocket) :
    (sim_step cfg t r).current_propellant_mass ≤ r.current_propellant_mass :=
  update_state_prop_le _ _ _ _ (by norm_num [TIME_STEP])

/-- Every sample recorded by the loop from a `GoodR` state keeps the
invariant, keeps the dry mass, and is bounded by the entry state's mass and
propellant; consecutive samples are non-increasing in both. -/
theorem sim_loop_good (cfg : Config) :
    ∀ (fuel : ℕ) (t : ℝ) (r : Rocket), GoodR r →
      (∀ s ∈ (sim_loop cfg fuel t r).1,
        GoodR s.rocket ∧ s.rocket.dry_mass = r.dry_mass ∧
        s.rocket.mass ≤ r.mass ∧
        s.rocket.current_propellant_mass ≤ r.current_propellant_mass) ∧
      List.Chain' (fun a b =>
        b.rocket.mass ≤ a.rocket.mass ∧
        b.rocket.current_propellant_mass ≤ a.rocket.current_propellant_mass)
        (sim_loop cfg fuel t r).1
  | 0, t, r, hr => by simp [sim_loop]
  | fuel + 1, t, r, hr => by
    rw [sim_loop]
    by_cases hguard : t < SIMULATION_DURATION ∧ r.altitude ≥ -1.0
    · rw [if_pos hguard]
      dsimp only
      have hg2 : GoodR (sim_step cfg t r) := sim_step_good cfg t r hr
      have hdry2 : (sim_step cfg t r).dry_mass = r.dry_mass := sim_step_dry cfg t r
      have hm2 : (sim_step cfg t r).mass ≤ r.mass := sim_step_mass_le cfg t r hr
      have hp2 : (sim_step cfg t r).current_propellant_mass ≤
          r.current_propellant_mass := sim_step_prop_le cfg t r
      by_cases himp : (sim_step cfg t r).altitude ≤ 0 ∧ (sim_step cfg t r).velocity.z < 0
      · rw [if_pos himp]
        refine ⟨fun s hs => ?_, by simp⟩
        rw [List.mem_singleton] at hs
        subst hs
        exact ⟨hg2, hdry2, hm2, hp2⟩
      · rw [if_neg himp]
        obtain ⟨ihmem, ihchain⟩ :=
          sim_loop_good cfg fuel (t + TIME_STEP) (sim_step cfg t r) hg2
        dsimp only
        constructor
        · intro s hs
          rcases List.mem_cons.mp hs with hs | hs
          · subst hs
            exact ⟨hg2, hdry2, hm2, hp2⟩
          · obtain ⟨hg, hd, hm, hp⟩ := ihmem s hs
            exact ⟨hg, hd.trans hdry2, hm.trans hm2, hp.trans hp2⟩
        · refine List.chain'_cons'.mpr ⟨fun y hy => ?_, ihchain⟩
          obtain ⟨_, _, hm, hp⟩ := ihmem y (List.mem_of_mem_head? hy)
          exact ⟨hm, hp⟩
    · rw [if_neg hguard]
      simp

/-- From a state with no propellant left, every sample recorded by the loop
still has no propellant and the mass never changes. -/
theorem sim_loop_no_propellant (cfg : Config) :
    ∀ (fuel : ℕ) (t : ℝ) (r : Rocket), r.current_propellant_mass = 0 →
      ∀ s ∈ (sim_loop cfg fuel t r).1,
        s.rocket.current_propellant_mass = 0 ∧ s.rocket.mass = r.mass
  | 0, t, r, hr => by simp [sim_loop]
  | fuel + 1, t, r, hr => by
    rw [sim_loop]
    by_cases hguard : t < SIMULATION_DURATION ∧ r.altitude ≥ -1.0
    · rw [if_pos hguard]
      dsimp only
      have hstep := update_state_no_propellant r TIME_STEP
        (total_force cfg t r) (mass_flow cfg t) hr
      have hm2 : (sim_step cfg t r).mass = r.mass := hstep.1
      have hp2 : (sim_step cfg t r).current_propellant_mass = 0 := by
        rw [sim_step]
        rw [hstep.2, hr]
      by_cases himp : (sim_step cfg t r).altitude ≤ 0 ∧ (sim_step cfg t r).velocity.z < 0
      · rw [if_pos himp]
        intro s hs
        rw [List.mem_singleton] at hs
        subst hs
        exact ⟨hp2, hm2⟩
      · rw [if_neg himp]
        dsimp only
        intro s hs
        rcases List.mem_cons.mp hs with hs | hs
        · subst hs
          exact ⟨hp2, hm2⟩
        · obtain ⟨hp, hm⟩ :=
            sim_loop_no_propellant cfg fuel (t + TIME_STEP) (sim_step cfg t r) hp2 s hs
          exact ⟨hp, hm.trans hm2⟩
    · rw [if_neg hguard]
      simp

/-- C2: over the whole recorded sample sequence of any run, the mass never
falls below the dry mass, the propellant is never negative and is zero only
with the mass exactly at the dry mass, and both mass and propellant are
non-increasing from each sample to the next (the invariants hold at sample
0 and after every `update_state` call). -/
theorem C2_run_invariants (cfg : Config) :
    (∀ s ∈ (run_simulation cfg).1,
      cfg.dry_mass ≤ s.rocket.mass ∧
      0 ≤ s.rocket.current_propellant_mass ∧
      (s.rocket.current_propellant_mass = 0 → s.rocket.mass = cfg.dry_mass)) ∧
    List.Chain' (fun a b =>
      b.rocket.mass ≤ a.rocket.mass ∧
      b.rocket.current_propellant_mass ≤ a.rocket.current_propellant_mass)
      (run_simulation cfg).1 := by
  have hfrom : ∀ r : Rocket, GoodR r → r.dry_mass = cfg.dry_mass →
      cfg.dry_mass ≤ r.mass ∧ 0 ≤ r.current_propellant_mass ∧
      (r.current_propellant_mass = 0 → r.mass = cfg.dry_mass) := by
    intro r hg hd
    refine ⟨?_, hg.2, fun h0 => ?_⟩
    · rw [← hd]
      exact hg.dry_le
    · rw [hg.1, h0, hd, add_zero]
  rw [run_simulation]
  dsimp only
  have hg0 : GoodR (mkRocket cfg.initial_mass cfg.dry_mass
      cfg.cross_sectional_area_m2 cfg.initial_position cfg.initial_velocity) :=
    mkRocket_good _ _ _ _ _
  have hdry0 : (mkRocket cfg.initial_mass cfg.dry_mass
      cfg.cross_sectional_area_m2 cfg.initial_position
      cfg.initial_velocity).dry_mass = cfg.dry_mass :=
    mkRocket_dry _ _ _ _ _
  obtain ⟨hmem, hchain⟩ := sim_loop_good cfg SIM_FUEL 0 _ hg0
  constructor
  · intro s hs
    rcases List.mem_cons.mp hs with hs | hs
    · subst hs
      exact hfrom _ hg0 hdry0
    · obtain ⟨hg, hd, _, _⟩ := hmem s hs
      exact hfrom _ hg (hd.trans hdry0)
  · refine List.chain'_cons'.mpr ⟨fun y hy => ?_, hchain⟩
    obtain ⟨_, _, hm, hp⟩ := hmem y (List.mem_of_mem_head? hy)
    exact ⟨hm, hp⟩

/-- Concrete configuration used by the C2 witness. -/
def c2Config : Config := ⟨2, 1, 30, 1, 0.5, 1, ⟨0, 0, 0⟩, ⟨0, 0, 0⟩, ⟨0, 0, 1⟩⟩

/-- Sample 0 of the C2 witness's run. -/
def c2Sample : Sample := ⟨0, mkRocket 2 1 1 ⟨0, 0, 0⟩ ⟨0, 0, 0⟩⟩

theorem C2_run_invariants_witness :
    c2Config.dry_mass ≤ c2Sample.rocket.mass :=
  ((C2_run_invariants c2Config).1 c2Sample
    (by rw [run_simulation]; exact List.mem_cons_self _ _)).1

/-- C7: from a configuration whose initial mass is below the dry mass,
every recorded sample (from sample 0 on) has zero propellant and mass equal
to the dry mass; the run still produces its sample sequence (the adjustment
is only the constructor's non-fatal warning). -/
theorem C7_underfueled_run (cfg : Config) (h : cfg.initial_mass < cfg.dry_mass) :
    (∀ s ∈ (run_simulation cfg).1,
      s.rocket.current_propellant_mass = 0 ∧ s.rocket.mass = cfg.dry_mass) ∧
    (run_simulation cfg).1 ≠ [] ∧
    init_mass_warning cfg.initial_mass cfg.dry_mass := by
  have hneg : cfg.initial_mass - cfg.dry_mass < 0 := by linarith
  obtain ⟨hm0, hp0⟩ := mkRocket_clamped cfg.initial_mass cfg.dry_mass
    cfg.cross_sectional_area_m2 cfg.initial_position cfg.initial_velocity hneg
  rw [run_simulation]
  dsimp only
  refine ⟨fun s hs => ?_, by simp, hneg⟩
  rcases List.mem_cons.mp hs with hs | hs
  · subst hs
    exact ⟨hp0, hm0⟩
  · obtain ⟨hp, hm⟩ := sim_loop_no_propellant cfg SIM_FUEL 0 _ hp0 s hs
    exact ⟨hp, hm.trans hm0⟩

/-- Concrete configuration (initial mass below dry mass) used by the C7
witness. -/
def c7Config : Config := ⟨1, 2, 30, 1, 0.5, 1, ⟨0, 0, 0⟩, ⟨0, 0, 0⟩, ⟨0, 0, 1⟩⟩

theorem C7_underfueled_run_witness : (run_simulation c7Config).1 ≠ [] :=
  (C7_underfueled_run c7Config (by norm_num [c7Config])).2.1

/-- The loop's iteration budget is never the binding constraint: with at
least `(SIMULATION_DURATION - t) / TIME_STEP` iterations available, the
while-condition or the impact break ends the loop first. -/
theorem sim_loop_no_fuel_exhaustion (cfg : Config) :
    ∀ (fuel : ℕ) (t : ℝ) (r : Rocket),
      SIMULATION_DURATION ≤ t + fuel * TIME_STEP →
      (sim_loop cfg (fuel + 1) t r).2 ≠ Outcome.fuel_exhausted
  | 0, t, r, hb => by
    rw [sim_loop]
    by_cases hguard : t < SIMULATION_DURATION ∧ r.altitude ≥ -1.0
    · exfalso
      have : SIMULATION_DURATION ≤ t := by
        have h0 : ((0 : ℕ) : ℝ) * TIME_STEP = 0 := by norm_num
        linarith [hb, h0]
      exact absurd hguard.1 (not_lt.mpr this)
    · rw [if_neg hguard]
      simp
  | fuel + 1, t, r, hb => by
    rw [sim_loop]
    by_cases hguard : t < SIMULATION_DURATION ∧ r.altitude ≥ -1.0
    · rw [if_pos hguard]
      dsimp only
      by_cases himp : (sim_step cfg t r).altitude ≤ 0 ∧ (sim_step cfg t r).velocity.z < 0
      · rw [if_pos himp]
        simp
      · rw [if_neg himp]
        dsimp only
        refine sim_loop_no_fuel_exhaustion cfg fuel (t + TIME_STEP) (sim_step cfg t r) ?_
        push_cast at hb ⊢
        linarith
    · rw [if_neg hguard]
      simp

/-- When the loop ends by impact, its sample list ends with the impact
sample: the last recorded sample has altitude at most `0` and negative
vertical velocity. -/
theorem sim_loop_impact_last (cfg : Config) :
    ∀ (fuel : ℕ) (t : ℝ) (r : Rocket),
      (sim_loop cfg fuel t r).2 = Outcome.impact →
      ∃ s, (sim_loop cfg fuel t r).1.getLast? = some s ∧
        s.rocket.altitude ≤ 0 ∧ s.rocket.velocity.z < 0
  | 0, t, r, h => by simp [sim_loop] at h
  | fuel + 1, t, r, h => by
    rw [sim_loop] at h ⊢
    by_cases hguard : t < SIMULATION_DURATION ∧ r.altitude ≥ -1.0
    · rw [if_pos hguard] at h ⊢
      dsimp only at h ⊢
      by_cases himp : (sim_step cfg t r).altitude ≤ 0 ∧ (sim_step cfg t r).velocity.z < 0
      · rw [if_pos himp] at h ⊢
        exact ⟨⟨t + TIME_STEP, sim_step cfg t r⟩, by simp, himp.1, himp.2⟩
      · rw [if_neg himp] at h ⊢
        dsimp only at h ⊢
        obtain ⟨s, hlast, hs⟩ :=
          sim_loop_impact_last cfg fuel (t + TIME_STEP) (sim_step cfg t r) h
        refine ⟨s, ?_, hs⟩
        rcases hl : (sim_loop cfg fuel (t + TIME_STEP) (sim_step cfg t r)).1 with _ | ⟨a, l⟩
        · rw [hl] at hlast
          simp at hlast
        · rw [hl] at hlast
          rw [List.getLast?_cons_cons]
          exact hlast
    · rw [if_neg hguard] at h
      simp at h

/-- C4: every run ends in exactly one of the two terminal outcomes — impact
or duration-exceeded (the embedding's iteration budget is proved never to
run out) — and a run that ends by impact has the impact sample as its final
recorded sample, with altitude at most `0` and negative vertical velocity;
a run whose while-condition becomes false without the impact check firing
ends as duration-exceeded. -/
theorem C4_termination (cfg : Config) :
    ((run_simulation cfg).2 = Outcome.impact ∨
     (run_simulation cfg).2 = Outcome.duration_exceeded) ∧
    ((run_simulation cfg).2 = Outcome.impact →
      ∃ s, (run_simulation cfg).1.getLast? = some s ∧
        s.rocket.altitude ≤ 0 ∧ s.rocket.velocity.z < 0) := by
  rw [run_simulation]
  dsimp only
  have hnf : (sim_loop cfg SIM_FUEL 0 (mkRocket cfg.initial_mass cfg.dry_mass
      cfg.cross_sectional_area_m2 cfg.initial_position cfg.initial_velocity)).2 ≠
      Outcome.fuel_exhausted := by
    have h6001 : SIM_FUEL = 6000 + 1 := rfl
    rw [h6001]
    refine sim_loop_no_fuel_exhaustion cfg 6000 0 _ ?_
    norm_num [SIMULATION_DURATION, TIME_STEP]
  constructor
  · rcases hout : (sim_loop cfg SIM_FUEL 0 (mkRocket cfg.initial_mass cfg.dry_mass
        cfg.cross_sectional_area_m2 cfg.initial_position
        cfg.initial_velocity)).2 with _ | _ | _
    · exact Or.inl rfl
    · exact Or.inr rfl
    · exact absurd hout hnf
  · intro himpact
    obtain ⟨s, hlast, hs⟩ := sim_loop_impact_last cfg SIM_FUEL 0
      (mkRocket cfg.initial_mass cfg.dry_mass cfg.cross_sectional_area_m2
        cfg.initial_position cfg.initial_velocity) himpact
    refine ⟨s, ?_, hs⟩
    rcases hl : (sim_loop cfg SIM_FUEL 0 (mkRocket cfg.initial_mass cfg.dry_mass
        cfg.cross_sectional_area_m2 cfg.initial_position
        cfg.initial_velocity)).1 with _ | ⟨a, l⟩
    · rw [hl] at hlast
      simp at hlast
    · rw [hl] at hlast
      rw [List.getLast?_cons_cons]
      exact hlast

/-- Concrete configuration used by the C4 witness. -/
def c4Config : Config := ⟨2, 1, 30, 1, 0.5, 1, ⟨0, 0, 0⟩, ⟨0, 0, 0⟩, ⟨0, 0, 1⟩⟩

theorem C4_termination_witness :
    (run_simulation c4Config).2 = Outcome.impact ∨
    (run_simulation c4Config).2 = Outcome.duration_exceeded :=
  (C4_termination c4Config).1

end RocketSim
